import Mathlib

/-!
Verification of the ND-300CM/KM serial driver (`nd300.py`).

The embedding below mirrors the Python source:

* `Command`, `Status`, `Sender` embed the enums of the same names
  (`_Sender` values: user = 0x10, machine = 0x01).
* `CommandOrStatus` is the tagged union of the two code families;
  `ND300.fromByte` embeds `_CommandOrStatus.from_byte` (try `Command(value)`,
  on `ValueError` fall back to `Status(value)`).
* `Message` embeds the `Message` class: a command-or-status plus a Python
  value (`PyVal`); `mkMessage` embeds the constructor together with
  `Message._validate` (which raises `TypeError` on a data-arity mismatch).
* `toBytes` embeds `Message.to_bytes`, including the detour through the
  hexadecimal f-string and `bytes.fromhex`: the datum is rendered with
  `format(data, "02X")` (at least two hex digits, a leading minus sign for
  negative values, more than two digits for values above 0xFF) and
  `bytes.fromhex` fails on a minus sign or an odd number of hex digits.
* `fromBytes` embeds `Message.from_bytes` with its exact check order,
  including `data = command.data_type()(bytes_[4])`, which for a code whose
  data type is `None` evaluates `None(bytes_[4])` and raises `TypeError`.
* `Transport` is a test double for the `serial.Serial` collaborator: a queue
  of scripted results for `read(6)`, the log of `write` calls, and a count of
  reads.  `sendCommand`, `readResponse`, `payout` embed the corresponding
  `Connection` methods by explicit state passing.

Each distinct raising site of the Python source gets its own `PyError`
constructor, so that the error *kind* raised at each site is observable.
-/

deriving instance DecidableEq for Except

namespace ND300

/-- Error kinds, one per distinct raising site in `nd300.py`.
In Python these are `ValueError`s and `TypeError`s distinguished by
their message and raise site. -/
inductive PyError where
  /-- `from_bytes`: `len(bytes_) != 6`. -/
  | badLength : PyError
  /-- `from_bytes`: `bytes_[0] != 1`. -/
  | badStart (b : Nat) : PyError
  /-- `from_bytes`: `_Sender(bytes_[1])` raises `ValueError` when byte 1
  names no sender. -/
  | badSenderByte (b : Nat) : PyError
  /-- `from_byte`: neither `Command(value)` nor `Status(value)` matches. -/
  | unknownCode (b : Nat) : PyError
  /-- `from_bytes`: `command.data_type()(bytes_[4])` evaluates
  `None(bytes_[4])` for a code with no data, raising `TypeError`. -/
  | noneNotCallable : PyError
  /-- `from_bytes`: received checksum differs from the computed one. -/
  | badChecksum (received computed : Nat) : PyError
  /-- `from_bytes`: sender byte differs from the resolved code's sender. -/
  | senderMismatch : PyError
  /-- `Message._validate`: data arity mismatch (`TypeError`). -/
  | typeErrorArity : PyError
  /-- `bytes.fromhex` raises `ValueError` (minus sign or odd digit count). -/
  | fromhexError : PyError
  /-- `read_response`: `len(bytes_) == 0` ("Empty buffer"). -/
  | emptyBuffer : PyError
  /-- `read_response`: `len(bytes_) != 6` ("Bad response"). -/
  | badResponse : PyError
  /-- `send_command`: `not command.is_user_command()`. -/
  | notUserCommand : PyError
deriving DecidableEq

/-- The `_Sender` enum: the two protocol parties. -/
inductive Sender where
  | user : Sender
  | machine : Sender
deriving DecidableEq, Fintype

/-- Protocol byte of each sender (`_Sender.user = 0x10`, `_Sender.machine = 0x01`). -/
def Sender.value : Sender → Nat
  | .user => 0x10
  | .machine => 0x01

/-- `_Sender(b)`: lookup of a sender enum member by value. -/
def senderFromValue (b : Nat) : Option Sender :=
  if b = 0x10 then some .user
  else if b = 0x01 then some .machine
  else none

/-- The `Command` enum: codes the user may send. -/
inductive Command where
  | SINGLE_MACHINE_PAYOUT : Command
  | REQUEST_MACHINE_STATUS : Command
  | RESET_DISPENSER : Command
  | MULTIPLE_MACHINES_PAYOUT : Command
deriving DecidableEq, Fintype

/-- Numeric code of each `Command` member. -/
def Command.value : Command → Nat
  | .SINGLE_MACHINE_PAYOUT => 0x10
  | .REQUEST_MACHINE_STATUS => 0x11
  | .RESET_DISPENSER => 0x12
  | .MULTIPLE_MACHINES_PAYOUT => 0x13

/-- `Command(b)`: lookup of a command enum member by value. -/
def commandFromValue (b : Nat) : Option Command :=
  if b = 0x10 then some .SINGLE_MACHINE_PAYOUT
  else if b = 0x11 then some .REQUEST_MACHINE_STATUS
  else if b = 0x12 then some .RESET_DISPENSER
  else if b = 0x13 then some .MULTIPLE_MACHINES_PAYOUT
  else none

/-- The `Status` enum: codes the machine may return. -/
inductive Status where
  | PAYOUT_SUCCESSFUL : Status
  | PAYOUT_FAILS : Status
  | STATUS_FINE : Status
  | EMPTY_NOTE : Status
  | STOCK_LESS : Status
  | NOTE_JAM : Status
  | OVER_LENGTH : Status
  | NOTE_NOT_EXIT : Status
  | SENSOR_ERROR : Status
  | DOUBLE_NOTE_ERROR : Status
  | MOTOR_ERROR : Status
  | DISPENSING_BUSY : Status
  | SENSOR_ADJUSTING : Status
  | CHECKSUM_ERROR : Status
  | LOW_POWER_ERROR : Status
deriving DecidableEq, Fintype

/-- Numeric code of each `Status` member. -/
def Status.value : Status → Nat
  | .PAYOUT_SUCCESSFUL => 0xAA
  | .PAYOUT_FAILS => 0xBB
  | .STATUS_FINE => 0x00
  | .EMPTY_NOTE => 0x01
  | .STOCK_LESS => 0x02
  | .NOTE_JAM => 0x03
  | .OVER_LENGTH => 0x04
  | .NOTE_NOT_EXIT => 0x05
  | .SENSOR_ERROR => 0x06
  | .DOUBLE_NOTE_ERROR => 0x07
  | .MOTOR_ERROR => 0x08
  | .DISPENSING_BUSY => 0x09
  | .SENSOR_ADJUSTING => 0x0A
  | .CHECKSUM_ERROR => 0x0B
  | .LOW_POWER_ERROR => 0x0C

/-- `Status(b)`: lookup of a status enum member by value. -/
def statusFromValue (b : Nat) : Option Status :=
  if b = 0xAA then some .PAYOUT_SUCCESSFUL
  else if b = 0xBB then some .PAYOUT_FAILS
  else if b = 0x00 then some .STATUS_FINE
  else if b = 0x01 then some .EMPTY_NOTE
  else if b = 0x02 then some .STOCK_LESS
  else if b = 0x03 then some .NOTE_JAM
  else if b = 0x04 then some .OVER_LENGTH
  else if b = 0x05 then some .NOTE_NOT_EXIT
  else if b = 0x06 then some .SENSOR_ERROR
  else if b = 0x07 then some .DOUBLE_NOTE_ERROR
  else if b = 0x08 then some .MOTOR_ERROR
  else if b = 0x09 then some .DISPENSING_BUSY
  else if b = 0x0A then some .SENSOR_ADJUSTING
  else if b = 0x0B then some .CHECKSUM_ERROR
  else if b = 0x0C then some .LOW_POWER_ERROR
  else none

/-- The `_CommandOrStatus` union: the byte in the cmd/status field is
either a user command or a machine status. -/
inductive CommandOrStatus where
  | cmd (c : Command) : CommandOrStatus
  | stat (s : Status) : CommandOrStatus
deriving DecidableEq, Fintype

/-- The data type associated with each Python value (only `int` occurs
as a concrete entry of `_commands_data_types`). -/
inductive PyType where
  | tint : PyType
deriving DecidableEq

/-- Python values a `Message` datum can hold in the source and its tests:
`None`, an `int`, or a `str`. -/
inductive PyVal where
  | pyNone : PyVal
  | pyInt (i : Int) : PyVal
  | pyStr (s : String) : PyVal
deriving DecidableEq

/-- The `_commands_data_types` table: data arity of each command. -/
def commandsDataTypes : Command → Option PyType
  | .SINGLE_MACHINE_PAYOUT => some .tint
  | .REQUEST_MACHINE_STATUS => none
  | .RESET_DISPENSER => none
  | .MULTIPLE_MACHINES_PAYOUT => some .tint

/-- `data_type()`: commands consult `_commands_data_types`; every status
has `int` data. -/
def CommandOrStatus.dataType : CommandOrStatus → Option PyType
  | .cmd c => commandsDataTypes c
  | .stat _ => some .tint

/-- `sender()`: commands are sent by the user, statuses by the machine. -/
def CommandOrStatus.sender : CommandOrStatus → Sender
  | .cmd _ => .user
  | .stat _ => .machine

/-- The numeric code of a command-or-status (`self.command.value`). -/
def CommandOrStatus.value : CommandOrStatus → Nat
  | .cmd c => c.value
  | .stat s => s.value

/-- `is_user_command()`: `self in Command`. -/
def CommandOrStatus.isUserCommand : CommandOrStatus → Bool
  | .cmd _ => true
  | .stat _ => false

/-- `_CommandOrStatus.from_byte`: try `Command(value)`; on `ValueError`
fall back to `Status(value)`, which raises `ValueError` on no match. -/
def fromByte (b : Nat) : Except PyError CommandOrStatus :=
  match commandFromValue b with
  | some c => .ok (.cmd c)
  | none =>
    match statusFromValue b with
    | some s => .ok (.stat s)
    | none => .error (.unknownCode b)

/-- A decoded message: a command-or-status plus its datum, compared by
`__eq__` on both fields. -/
structure Message where
  command : CommandOrStatus
  data : PyVal
deriving DecidableEq

/-- The condition checked by `Message._validate`:
`self.data is None and expected is None or isinstance(self.data, expected)`.
When `expected` is `int`, only an `int` datum passes (`isinstance(None, int)`
and `isinstance(str, int)` are false); when `expected` is `None`, only a
`None` datum avoids the `TypeError` (a non-`None` datum reaches
`isinstance(self.data, None)`, which itself raises `TypeError`). -/
def dataMatches (c : CommandOrStatus) (d : PyVal) : Bool :=
  match c.dataType, d with
  | none, .pyNone => true
  | some .tint, .pyInt _ => true
  | _, _ => false

/-- `Message.__init__`: store the fields, then `_validate`, which raises
`TypeError` on a data-arity mismatch. -/
def mkMessage (c : CommandOrStatus) (d : PyVal) : Except PyError Message :=
  if dataMatches c d then .ok ⟨c, d⟩ else .error .typeErrorArity

/-- `Message._compute_checksum`: `sum(bytes_) % 256`. -/
def computeChecksum (bs : List Nat) : Nat :=
  bs.sum % 256

/-- Big-endian base-16 digits of `n` (at least one digit), as produced by
Python's `X` format for a non-negative integer.  The `fuel` argument only
drives the recursion; `n + 1` divisions by 16 always suffice. -/
def hexDigitsCore : Nat → Nat → List Nat → List Nat
  | 0, _, acc => acc
  | fuel + 1, n, acc =>
    if n < 16 then n :: acc
    else hexDigitsCore fuel (n / 16) (n % 16 :: acc)

/-- Big-endian base-16 digits of `n`, at least one digit. -/
def hexDigits (n : Nat) : List Nat :=
  hexDigitsCore (n + 1) n []

/-- `format(n, "02X")` for a non-negative `n`: the hex digits of `n`
zero-padded on the left to a minimum width of two. -/
def hexPad2 (n : Nat) : List Nat :=
  let ds := hexDigits n
  if ds.length < 2 then 0 :: ds else ds

/-- `bytes.fromhex`: group an even-length digit sequence into bytes;
fail (`ValueError`) on an odd number of digits. -/
def pairUp : List Nat → Option (List Nat)
  | [] => some []
  | [_] => none
  | a :: b :: rest => (pairUp rest).map (fun bs => (16 * a + b) :: bs)

/-- `Message.to_bytes`: substitute 0 for a `None` datum, render
`f"01{sender:02X}00{code:02X}{data:02X}"` and parse it with
`bytes.fromhex`, then append the checksum byte.  A negative datum puts a
minus sign in the hex string and a datum above 0xFF widens it, so
`bytes.fromhex` can fail or the result can exceed six bytes; a `str`
datum makes the `X` format itself raise `ValueError`. -/
def toBytes (m : Message) : Except PyError (List Nat) :=
  match m.data with
  | .pyStr _ => .error .fromhexError
  | _ =>
    let d : Int := match m.data with
      | .pyNone => 0
      | .pyInt i => i
      | .pyStr _ => 0
    if d < 0 then .error .fromhexError
    else
      let digits := [0, 1] ++ hexPad2 m.command.sender.value ++ [0, 0]
        ++ hexPad2 m.command.value ++ hexPad2 d.toNat
      match pairUp digits with
      | none => .error .fromhexError
      | some bs => .ok (bs ++ [computeChecksum bs])

/-- `Message.from_bytes`, preserving the exact order of operations of the
source: length, start byte, `_Sender(bytes_[1])`,
`_CommandOrStatus.from_byte(bytes_[3])`, `command.data_type()(bytes_[4])`,
checksum comparison, sender comparison, then `Message(command, data)`. -/
def fromBytes : List Nat → Except PyError Message
  | [b0, b1, b2, b3, b4, b5] =>
    if b0 ≠ 1 then .error (.badStart b0)
    else
      match senderFromValue b1 with
      | none => .error (.badSenderByte b1)
      | some sender =>
        match fromByte b3 with
        | .error e => .error e
        | .ok command =>
          match command.dataType with
          | none => .error .noneNotCallable
          | some .tint =>
            let computed := computeChecksum [b0, b1, b2, b3, b4]
            if b5 ≠ computed then .error (.badChecksum b5 computed)
            else if sender ≠ command.sender then .error .senderMismatch
            else mkMessage command (.pyInt (b4 : Int))
  | _ => .error .badLength

/-- Test double for the `serial.Serial` collaborator: a queue of scripted
results for successive `read(6)` calls, the log of frames passed to
`write`, and the number of `read` calls made. -/
structure Transport where
  toRead : List (List Nat)
  written : List (List Nat)
  readCount : Nat
deriving DecidableEq

/-- `serial.read(6)`: pop the next scripted result (empty when the script
is exhausted, as a timed-out read returns an empty byte string). -/
def serialRead (t : Transport) : List Nat × Transport :=
  match t.toRead with
  | [] => ([], { t with readCount := t.readCount + 1 })
  | bs :: rest => (bs, { t with toRead := rest, readCount := t.readCount + 1 })

/-- `Connection.send_command`: reject non-user commands, build and
validate the `Message`, encode it, write the bytes, return the message. -/
def sendCommand (t : Transport) (command : CommandOrStatus) (data : PyVal) :
    Except PyError (Message × Transport) :=
  if ¬ command.isUserCommand then .error .notUserCommand
  else
    match mkMessage command data with
    | .error e => .error e
    | .ok message =>
      match toBytes message with
      | .error e => .error e
      | .ok bs => .ok (message, { t with written := t.written ++ [bs] })

/-- `Connection.read_response`: read six bytes; an empty read is
"Empty buffer", a short read is "Bad response", otherwise decode. -/
def readResponse (t : Transport) : Except PyError (Message × Transport) :=
  let r := serialRead t
  if r.1.length = 0 then .error .emptyBuffer
  else if r.1.length ≠ 6 then .error .badResponse
  else
    match fromBytes r.1 with
    | .error e => .error e
    | .ok m => .ok (m, r.2)

/-- The loop of `Connection.payout`: while the response's code is
`Status.DISPENSING_BUSY` or `Status.PAYOUT_SUCCESSFUL`, send
`Command.REQUEST_MACHINE_STATUS` and read again.  Against the finite
scripted transport the loop terminates: every successful read consumes
one scripted entry, and an exhausted script makes the read fail. -/
def payoutLoop (response : Message) (t : Transport) :
    Except PyError (Message × Transport) :=
  if response.command = CommandOrStatus.stat .DISPENSING_BUSY
      ∨ response.command = CommandOrStatus.stat .PAYOUT_SUCCESSFUL then
    match hs : sendCommand t (.cmd .REQUEST_MACHINE_STATUS) .pyNone with
    | .error e => .error e
    | .ok p =>
      match hr : readResponse p.2 with
      | .error e => .error e
      | .ok q => payoutLoop q.1 q.2
  else .ok (response, t)
termination_by t.toRead.length
decreasing_by
  have he : sendCommand t (.cmd .REQUEST_MACHINE_STATUS) .pyNone
      = .ok (⟨.cmd .REQUEST_MACHINE_STATUS, .pyNone⟩,
             { t with written := t.written ++ [[1, 16, 0, 17, 0, 34]] }) := rfl
  rw [he] at hs
  injection hs with hp
  subst hp
  unfold readResponse serialRead at hr
  rcases ht : t.toRead with _ | ⟨bs, rest⟩
  · rw [ht] at hr
    simp at hr
  · rw [ht] at hr
    simp at hr
    split at hr
    · simp at hr
    split at hr
    case isFalse => simp at hr
    rcases hf : fromBytes bs with e | m <;> rw [hf] at hr
    · simp at hr
    simp only [Except.ok.injEq] at hr
    subst hr
    simp

/-- `Connection.payout`: send `SINGLE_MACHINE_PAYOUT` with the quantity,
read a response, run the busy/successful polling loop, and return the
sent message together with the final response. -/
def payout (t : Transport) (quantity : Int) :
    Except PyError (Message × Message × Transport) :=
  match sendCommand t (.cmd .SINGLE_MACHINE_PAYOUT) (.pyInt quantity) with
  | .error e => .error e
  | .ok (command, t1) =>
    match readResponse t1 with
    | .error e => .error e
    | .ok (response, t2) =>
      match payoutLoop response t2 with
      | .error e => .error e
      | .ok (final, t3) => .ok (command, final, t3)

/-- The byte that `to_bytes` puts in the datum field: the datum when it is
an integer, 0 when it is `None` (the wire format always carries a data
byte).  Used to state what the encoder writes. -/
def pyDatum : PyVal → Nat
  | .pyInt i => i.toNat
  | _ => 0

theorem hexPad2_lt256 (n : Nat) (h : n < 256) : hexPad2 n = [n / 16, n % 16] := by
  unfold hexPad2 hexDigits
  rcases n with _ | k
  · rfl
  · unfold hexDigitsCore
    by_cases h16 : k + 1 < 16
    · simp [h16, Nat.div_eq_of_lt h16, Nat.mod_eq_of_lt h16]
    · have hk : (k + 1) / 16 < 16 := by omega
      simp [h16, hexDigitsCore, hk]

theorem pairUp_ten (d0 d1 d2 d3 d4 d5 d6 d7 d8 d9 : Nat) :
    pairUp [d0, d1, d2, d3, d4, d5, d6, d7, d8, d9]
      = some [16 * d0 + d1, 16 * d2 + d3, 16 * d4 + d5, 16 * d6 + d7, 16 * d8 + d9] := rfl

theorem toBytes_valid (c : CommandOrStatus) (d : PyVal)
    (hm : dataMatches c d = true)
    (hd : ∀ i : Int, d = .pyInt i → 0 ≤ i ∧ i < 256) :
    toBytes ⟨c, d⟩
      = .ok ([1, c.sender.value, 0, c.value, pyDatum d]
             ++ [computeChecksum [1, c.sender.value, 0, c.value, pyDatum d]]) := by
  have hsv : hexPad2 c.sender.value = [c.sender.value / 16, c.sender.value % 16] := by
    apply hexPad2_lt256
    cases c <;> simp [CommandOrStatus.sender, Sender.value]
  have hcv : hexPad2 c.value = [c.value / 16, c.value % 16] := by
    apply hexPad2_lt256
    rcases c with c | s
    · cases c <;> simp [CommandOrStatus.value, Command.value]
    · cases s <;> simp [CommandOrStatus.value, Status.value]
  rcases d with _ | i | sv
  · unfold toBytes
    simp only [Int.toNat_zero, hsv, hcv]
    rw [if_neg (by norm_num : ¬ ((0 : Int) < 0))]
    rw [show hexPad2 0 = [0, 0] from rfl]
    simp only [List.cons_append, List.nil_append]
    rw [pairUp_ten]
    simp [pyDatum, computeChecksum, Nat.div_add_mod]
  · obtain ⟨h0, h255⟩ := hd i rfl
    have hn : i.toNat < 256 := by omega
    have hdv : hexPad2 i.toNat = [i.toNat / 16, i.toNat % 16] := hexPad2_lt256 _ hn
    unfold toBytes
    simp only [hsv, hcv, hdv]
    rw [if_neg (by omega : ¬ (i < 0))]
    simp only [List.cons_append, List.nil_append]
    rw [pairUp_ten]
    simp [pyDatum, computeChecksum, Nat.div_add_mod]
  · exfalso
    rcases hm1 : c.dataType with _ | t
    · unfold dataMatches at hm
      rw [hm1] at hm
      simp at hm
    · cases t
      unfold dataMatches at hm
      rw [hm1] at hm
      simp at hm

theorem payoutLoop_done (m : Message) (t : Transport)
    (h1 : m.command ≠ CommandOrStatus.stat .DISPENSING_BUSY)
    (h2 : m.command ≠ CommandOrStatus.stat .PAYOUT_SUCCESSFUL) :
    payoutLoop m t = .ok (m, t) := by
  rw [payoutLoop.eq_def]
  simp [h1, h2]

theorem fromByte_error_eq (b : Nat) (e : PyError) (h : fromByte b = .error e) :
    e = .unknownCode b := by
  unfold fromByte at h
  rcases hc : commandFromValue b with _ | c <;> rw [hc] at h
  · rcases hs2 : statusFromValue b with _ | s <;> rw [hs2] at h
    · injection h with h1
      exact h1.symm
    · cases h
  · cases h

theorem fromBytes_no_transport_error (bs : List Nat) :
    fromBytes bs ≠ .error .emptyBuffer ∧ fromBytes bs ≠ .error .badResponse := by
  unfold fromBytes mkMessage
  constructor <;> (repeat' split) <;> (try simp) <;> (repeat' split) <;> (try simp)
  all_goals
    rename_i e heq
    have he2 := fromByte_error_eq _ _ heq
    subst he2
    simp

/-- C1: the spec claims `decode(encode(message)) == message` for every
Message respecting its code's data arity, including the two no-datum
commands.  The code crashes instead of round-tripping there:
`from_bytes` evaluates `command.data_type()(bytes_[4])`, which is
`None(bytes_[4])` for `RESET_DISPENSER` and `REQUEST_MACHINE_STATUS`, so
decoding the very frames `to_bytes` produces for them raises `TypeError`. -/
theorem roundtrip_crashes_for_no_data_codes :
    mkMessage (.cmd .RESET_DISPENSER) .pyNone
      = .ok ⟨.cmd .RESET_DISPENSER, .pyNone⟩ ∧
    toBytes ⟨.cmd .RESET_DISPENSER, .pyNone⟩ = .ok [1, 16, 0, 18, 0, 35] ∧
    fromBytes [1, 16, 0, 18, 0, 35] = .error .noneNotCallable ∧
    mkMessage (.cmd .REQUEST_MACHINE_STATUS) .pyNone
      = .ok ⟨.cmd .REQUEST_MACHINE_STATUS, .pyNone⟩ ∧
    toBytes ⟨.cmd .REQUEST_MACHINE_STATUS, .pyNone⟩ = .ok [1, 16, 0, 17, 0, 34] ∧
    fromBytes [1, 16, 0, 17, 0, 34] = .error .noneNotCallable := by
  decide

/-- C2 (counterexample): with the transport scripted to yield Busy, Busy,
PayoutSuccessful, the claim says `payout(5)` performs exactly 3 reads and
2 extra status-request writes and returns the successful Message.  The
code's loop condition also re-polls on `PAYOUT_SUCCESSFUL`, so it issues a
third status request, attempts a fourth read, and fails with the
empty-buffer error instead of returning. -/
theorem payout_scenario_fails_as_stated :
    payout ⟨[[1, 1, 0, 9, 0, 11], [1, 1, 0, 9, 0, 11], [1, 1, 0, 170, 3, 175]], [], 0⟩ 5
      = .error .emptyBuffer := by
  have l1 : payoutLoop ⟨.stat .DISPENSING_BUSY, .pyInt 0⟩
        ⟨[[1, 1, 0, 9, 0, 11], [1, 1, 0, 170, 3, 175]], [[1, 16, 0, 16, 5, 38]], 1⟩
      = payoutLoop ⟨.stat .DISPENSING_BUSY, .pyInt 0⟩
        ⟨[[1, 1, 0, 170, 3, 175]], [[1, 16, 0, 16, 5, 38], [1, 16, 0, 17, 0, 34]], 2⟩ := by
    rw [payoutLoop.eq_def]; rfl
  have l2 : payoutLoop ⟨.stat .DISPENSING_BUSY, .pyInt 0⟩
        ⟨[[1, 1, 0, 170, 3, 175]], [[1, 16, 0, 16, 5, 38], [1, 16, 0, 17, 0, 34]], 2⟩
      = payoutLoop ⟨.stat .PAYOUT_SUCCESSFUL, .pyInt 3⟩
        ⟨[], [[1, 16, 0, 16, 5, 38], [1, 16, 0, 17, 0, 34], [1, 16, 0, 17, 0, 34]], 3⟩ := by
    rw [payoutLoop.eq_def]; rfl
  have l3 : payoutLoop ⟨.stat .PAYOUT_SUCCESSFUL, .pyInt 3⟩
        ⟨[], [[1, 16, 0, 16, 5, 38], [1, 16, 0, 17, 0, 34], [1, 16, 0, 17, 0, 34]], 3⟩
      = .error .emptyBuffer := by
    rw [payoutLoop.eq_def]; rfl
  have e0 : payout ⟨[[1, 1, 0, 9, 0, 11], [1, 1, 0, 9, 0, 11], [1, 1, 0, 170, 3, 175]], [], 0⟩ 5
      = match payoutLoop ⟨.stat .DISPENSING_BUSY, .pyInt 0⟩
          ⟨[[1, 1, 0, 9, 0, 11], [1, 1, 0, 170, 3, 175]], [[1, 16, 0, 16, 5, 38]], 1⟩ with
        | .error e => .error e
        | .ok (final, t3) => .ok (⟨.cmd .SINGLE_MACHINE_PAYOUT, .pyInt 5⟩, final, t3) := rfl
  rw [e0, l1, l2, l3]

/-- C2 (amended): the payout loop re-issues a status request and reads
again while the received status is Busy *or PayoutSuccessful*, returning
at the first status that is neither; with the transport scripted to yield
Busy, Busy, PayoutSuccessful, StatusFine, `payout(5)` performs 4 reads and
3 extra status-request writes and returns the StatusFine message. -/
theorem payout_polls_while_busy_or_successful :
    (∀ (m : Message) (t : Transport),
        m.command ≠ CommandOrStatus.stat .DISPENSING_BUSY →
        m.command ≠ CommandOrStatus.stat .PAYOUT_SUCCESSFUL →
        payoutLoop m t = .ok (m, t)) ∧
    payout ⟨[[1, 1, 0, 9, 0, 11], [1, 1, 0, 9, 0, 11], [1, 1, 0, 170, 3, 175],
             [1, 1, 0, 0, 0, 2]], [], 0⟩ 5
      = .ok (⟨.cmd .SINGLE_MACHINE_PAYOUT, .pyInt 5⟩, ⟨.stat .STATUS_FINE, .pyInt 0⟩,
             ⟨[], [[1, 16, 0, 16, 5, 38], [1, 16, 0, 17, 0, 34], [1, 16, 0, 17, 0, 34],
                   [1, 16, 0, 17, 0, 34]], 4⟩) := by
  constructor
  · exact payoutLoop_done
  · have l1 : payoutLoop ⟨.stat .DISPENSING_BUSY, .pyInt 0⟩
          ⟨[[1, 1, 0, 9, 0, 11], [1, 1, 0, 170, 3, 175], [1, 1, 0, 0, 0, 2]],
           [[1, 16, 0, 16, 5, 38]], 1⟩
        = payoutLoop ⟨.stat .DISPENSING_BUSY, .pyInt 0⟩
          ⟨[[1, 1, 0, 170, 3, 175], [1, 1, 0, 0, 0, 2]],
           [[1, 16, 0, 16, 5, 38], [1, 16, 0, 17, 0, 34]], 2⟩ := by
      rw [payoutLoop.eq_def]; rfl
    have l2 : payoutLoop ⟨.stat .DISPENSING_BUSY, .pyInt 0⟩
          ⟨[[1, 1, 0, 170, 3, 175], [1, 1, 0, 0, 0, 2]],
           [[1, 16, 0, 16, 5, 38], [1, 16, 0, 17, 0, 34]], 2⟩
        = payoutLoop ⟨.stat .PAYOUT_SUCCESSFUL, .pyInt 3⟩
          ⟨[[1, 1, 0, 0, 0, 2]],
           [[1, 16, 0, 16, 5, 38], [1, 16, 0, 17, 0, 34], [1, 16, 0, 17, 0, 34]], 3⟩ := by
      rw [payoutLoop.eq_def]; rfl
    have l3 : payoutLoop ⟨.stat .PAYOUT_SUCCESSFUL, .pyInt 3⟩
          ⟨[[1, 1, 0, 0, 0, 2]],
           [[1, 16, 0, 16, 5, 38], [1, 16, 0, 17, 0, 34], [1, 16, 0, 17, 0, 34]], 3⟩
        = payoutLoop ⟨.stat .STATUS_FINE, .pyInt 0⟩
          ⟨[], [[1, 16, 0, 16, 5, 38], [1, 16, 0, 17, 0, 34], [1, 16, 0, 17, 0, 34],
                [1, 16, 0, 17, 0, 34]], 4⟩ := by
      rw [payoutLoop.eq_def]; rfl
    have l4 : payoutLoop ⟨.stat .STATUS_FINE, .pyInt 0⟩
          ⟨[], [[1, 16, 0, 16, 5, 38], [1, 16, 0, 17, 0, 34], [1, 16, 0, 17, 0, 34],
                [1, 16, 0, 17, 0, 34]], 4⟩
        = .ok (⟨.stat .STATUS_FINE, .pyInt 0⟩,
               ⟨[], [[1, 16, 0, 16, 5, 38], [1, 16, 0, 17, 0, 34], [1, 16, 0, 17, 0, 34],
                     [1, 16, 0, 17, 0, 34]], 4⟩) :=
      payoutLoop_done _ _ (by decide) (by decide)
    have e0 : payout ⟨[[1, 1, 0, 9, 0, 11], [1, 1, 0, 9, 0, 11], [1, 1, 0, 170, 3, 175],
                       [1, 1, 0, 0, 0, 2]], [], 0⟩ 5
        = match payoutLoop ⟨.stat .DISPENSING_BUSY, .pyInt 0⟩
            ⟨[[1, 1, 0, 9, 0, 11], [1, 1, 0, 170, 3, 175], [1, 1, 0, 0, 0, 2]],
             [[1, 16, 0, 16, 5, 38]], 1⟩ with
          | .error e => .error e
          | .ok (final, t3) => .ok (⟨.cmd .SINGLE_MACHINE_PAYOUT, .pyInt 5⟩, final, t3) := rfl
    rw [e0, l1, l2, l3, l4]

theorem payout_polls_while_busy_or_successful_witness :
    payoutLoop ⟨.stat .PAYOUT_FAILS, .pyInt 0⟩ ⟨[], [], 0⟩
      = .ok (⟨.stat .PAYOUT_FAILS, .pyInt 0⟩, ⟨[], [], 0⟩) :=
  payout_polls_while_busy_or_successful.1 _ _ (by decide) (by decide)

/-- C3 (counterexample): the claim says code resolution of byte 3 is
checked before any sender-related failure; in fact `from_bytes` evaluates
`_Sender(bytes_[1])` first, so a frame whose byte 1 names no sender and
whose byte 3 is an unknown code fails with a sender error rather than an
unknown-code error. -/
theorem decode_order_counterexample :
    commandFromValue 0xFF = none ∧ statusFromValue 0xFF = none ∧
    senderFromValue 0x05 = none ∧
    fromBytes [1, 5, 0, 255, 0, 5] = .error (.badSenderByte 5) ∧
    fromBytes [1, 5, 0, 255, 0, 5] ≠ .error (.unknownCode 255) := by
  decide

/-- C3 (amended): `from_bytes` checks, in order: length, start byte,
sender-byte resolution (`_Sender(bytes_[1])`), code resolution of byte 3,
datum interpretation (which fails for no-datum codes), checksum over
bytes 0-4, and finally the sender-match against the resolved code; each
failure kind is raised before any later check is evaluated. -/
theorem decode_check_order :
    (∀ bs : List Nat, bs.length ≠ 6 → fromBytes bs = .error .badLength) ∧
    (∀ b0 b1 b2 b3 b4 b5 : Nat, b0 ≠ 1 →
      fromBytes [b0, b1, b2, b3, b4, b5] = .error (.badStart b0)) ∧
    (∀ b1 b2 b3 b4 b5 : Nat, senderFromValue b1 = none →
      fromBytes [1, b1, b2, b3, b4, b5] = .error (.badSenderByte b1)) ∧
    (∀ (s : Sender) (b1 b2 b3 b4 b5 : Nat), senderFromValue b1 = some s →
      commandFromValue b3 = none → statusFromValue b3 = none →
      fromBytes [1, b1, b2, b3, b4, b5] = .error (.unknownCode b3)) ∧
    (∀ (s : Sender) (c : CommandOrStatus) (b1 b2 b3 b4 b5 : Nat),
      senderFromValue b1 = some s → fromByte b3 = .ok c → c.dataType = none →
      fromBytes [1, b1, b2, b3, b4, b5] = .error .noneNotCallable) ∧
    (∀ (s : Sender) (c : CommandOrStatus) (b1 b2 b3 b4 b5 : Nat),
      senderFromValue b1 = some s → fromByte b3 = .ok c → c.dataType = some .tint →
      b5 ≠ computeChecksum [1, b1, b2, b3, b4] →
      fromBytes [1, b1, b2, b3, b4, b5]
        = .error (.badChecksum b5 (computeChecksum [1, b1, b2, b3, b4]))) ∧
    (∀ (s : Sender) (c : CommandOrStatus) (b1 b2 b3 b4 : Nat),
      senderFromValue b1 = some s → fromByte b3 = .ok c → c.dataType = some .tint →
      s ≠ c.sender →
      fromBytes [1, b1, b2, b3, b4, computeChecksum [1, b1, b2, b3, b4]]
        = .error .senderMismatch) := by
  refine ⟨?_, ?_, ?_, ?_, ?_, ?_, ?_⟩
  · intro bs hlen
    rcases bs with _ | ⟨b0, _ | ⟨b1, _ | ⟨b2, _ | ⟨b3, _ | ⟨b4, _ | ⟨b5, _ | ⟨b6, rest⟩⟩⟩⟩⟩⟩⟩ <;>
      first
        | rfl
        | simp at hlen
  · intro b0 b1 b2 b3 b4 b5 h
    simp [fromBytes, h]
  · intro b1 b2 b3 b4 b5 hsv
    simp [fromBytes, hsv]
  · intro s b1 b2 b3 b4 b5 hsv hc hst
    simp [fromBytes, fromByte, hsv, hc, hst]
  · intro s c b1 b2 b3 b4 b5 hsv hfb hdt
    simp [fromBytes, hsv, hfb, hdt]
  · intro s c b1 b2 b3 b4 b5 hsv hfb hdt hck
    simp [fromBytes, hsv, hfb, hdt, hck]
  · intro s c b1 b2 b3 b4 hsv hfb hdt hsm
    simp [fromBytes, hsv, hfb, hdt, hsm]

theorem decode_check_order_witness :
    fromBytes [1, 2, 3] = .error .badLength ∧
    fromBytes [0, 16, 0, 16, 23, 55] = .error (.badStart 0) ∧
    fromBytes [1, 7, 0, 16, 23, 47] = .error (.badSenderByte 7) ∧
    fromBytes [1, 16, 0, 32, 0, 49] = .error (.unknownCode 32) ∧
    fromBytes [1, 16, 0, 18, 9, 44] = .error .noneNotCallable ∧
    fromBytes [1, 16, 0, 16, 23, 0] = .error (.badChecksum 0 56) ∧
    fromBytes [1, 1, 0, 16, 23, 41] = .error .senderMismatch :=
  ⟨decode_check_order.1 [1, 2, 3] (by decide),
   decode_check_order.2.1 0 16 0 16 23 55 (by decide),
   decode_check_order.2.2.1 7 0 16 23 47 (by decide),
   decode_check_order.2.2.2.1 .user 16 0 32 0 49 (by decide) (by decide) (by decide),
   decode_check_order.2.2.2.2.1 .user (.cmd .RESET_DISPENSER) 16 0 18 9 44
     (by decide) (by decide) (by decide),
   decode_check_order.2.2.2.2.2.1 .user (.cmd .SINGLE_MACHINE_PAYOUT) 16 0 16 23 0
     (by decide) (by decide) (by decide) (by decide),
   decode_check_order.2.2.2.2.2.2 .machine (.cmd .SINGLE_MACHINE_PAYOUT) 1 0 16 23
     (by decide) (by decide) (by decide) (by decide)⟩

/-- C4 (counterexample): construction-time validation only checks that the
datum is a Python `int`, not that it fits in a byte, so a validated
Message can make encoding fail (`data = 256` widens the hex string to an
odd number of digits, `data = -1` puts a minus sign in it) or produce a
7-byte output (`data = 4096`). -/
theorem encode_after_validation_counterexample :
    mkMessage (.cmd .SINGLE_MACHINE_PAYOUT) (.pyInt 256)
      = .ok ⟨.cmd .SINGLE_MACHINE_PAYOUT, .pyInt 256⟩ ∧
    toBytes ⟨.cmd .SINGLE_MACHINE_PAYOUT, .pyInt 256⟩ = .error .fromhexError ∧
    mkMessage (.cmd .SINGLE_MACHINE_PAYOUT) (.pyInt (-1))
      = .ok ⟨.cmd .SINGLE_MACHINE_PAYOUT, .pyInt (-1)⟩ ∧
    toBytes ⟨.cmd .SINGLE_MACHINE_PAYOUT, .pyInt (-1)⟩ = .error .fromhexError ∧
    mkMessage (.cmd .SINGLE_MACHINE_PAYOUT) (.pyInt 4096)
      = .ok ⟨.cmd .SINGLE_MACHINE_PAYOUT, .pyInt 4096⟩ ∧
    toBytes ⟨.cmd .SINGLE_MACHINE_PAYOUT, .pyInt 4096⟩
      = .ok [1, 16, 0, 16, 16, 0, 49] := by
  decide

/-- C4 (amended): for every Message that passed construction-time
validation *and whose datum, when present, is in 0..255*, encoding
succeeds and its output is exactly the 6-byte frame whose byte 4 is the
datum (0 when absent) and whose byte 5 is the sum of bytes 0-4 mod 256. -/
theorem encode_valid_message_six_bytes :
    ∀ (c : CommandOrStatus) (d : PyVal),
      dataMatches c d = true →
      (∀ i : Int, d = .pyInt i → 0 ≤ i ∧ i < 256) →
      toBytes ⟨c, d⟩
        = .ok ([1, c.sender.value, 0, c.value, pyDatum d]
               ++ [computeChecksum [1, c.sender.value, 0, c.value, pyDatum d]]) ∧
      ([1, c.sender.value, 0, c.value, pyDatum d]
       ++ [computeChecksum [1, c.sender.value, 0, c.value, pyDatum d]]).length = 6 :=
  fun c d hm hd => ⟨toBytes_valid c d hm hd, rfl⟩

theorem encode_valid_message_six_bytes_witness :
    toBytes ⟨.cmd .SINGLE_MACHINE_PAYOUT, .pyInt 23⟩ = .ok [1, 16, 0, 16, 23, 56] ∧
    ([1, 16, 0, 16, 23, 56] : List Nat).length = 6 :=
  encode_valid_message_six_bytes (.cmd .SINGLE_MACHINE_PAYOUT) (.pyInt 23) (by decide)
    (by intro i h; cases h; exact ⟨by decide, by decide⟩)

set_option maxRecDepth 8192 in
/-- C5: `from_byte` returns the Command a byte names when it matches a
Command code, otherwise the Status it names when it matches a Status
code, and otherwise fails with the unknown-code error; Command is
attempted before Status. -/
theorem resolve_tries_command_then_status :
    ∀ b : Nat, b < 256 →
      (∃ c : Command, c.value = b ∧ fromByte b = .ok (.cmd c)) ∨
      ((∀ c : Command, c.value ≠ b) ∧
        ∃ s : Status, s.value = b ∧ fromByte b = .ok (.stat s)) ∨
      ((∀ c : Command, c.value ≠ b) ∧ (∀ s : Status, s.value ≠ b) ∧
        fromByte b = .error (.unknownCode b)) := by
  decide

theorem resolve_tries_command_then_status_witness :
    ((∃ c : Command, c.value = 0xAA ∧ fromByte 0xAA = .ok (.cmd c)) ∨
     ((∀ c : Command, c.value ≠ 0xAA) ∧
       ∃ s : Status, s.value = 0xAA ∧ fromByte 0xAA = .ok (.stat s)) ∨
     ((∀ c : Command, c.value ≠ 0xAA) ∧ (∀ s : Status, s.value ≠ 0xAA) ∧
       fromByte 0xAA = .error (.unknownCode 0xAA))) :=
  resolve_tries_command_then_status 0xAA (by decide)

/-- C6: `read_response` fails with the empty-buffer error exactly when the
transport read returned zero bytes, with the bad-response error exactly
when it returned between 1 and 5 bytes, and on a full 6-byte read it
decodes them, propagating any decode failure unmodified. -/
theorem receive_error_classification :
    ∀ (t : Transport) (bs : List Nat) (t' : Transport),
      serialRead t = (bs, t') →
      bs.length ≤ 6 →
      ((readResponse t = .error .emptyBuffer ↔ bs.length = 0) ∧
       (readResponse t = .error .badResponse ↔ 1 ≤ bs.length ∧ bs.length ≤ 5) ∧
       (bs.length = 6 →
         readResponse t = (fromBytes bs).map (fun m => (m, t')))) := by
  intro t bs t' hsr hle
  have hrr : readResponse t
      = (if bs.length = 0 then .error .emptyBuffer
         else if bs.length ≠ 6 then .error .badResponse
         else match fromBytes bs with
           | .error e => .error e
           | .ok m => .ok (m, t')) := by
    unfold readResponse
    rw [hsr]
  by_cases hz : bs.length = 0
  · rw [hrr, if_pos hz]
    exact ⟨⟨fun _ => hz, fun _ => rfl⟩,
           ⟨fun h => absurd h (by decide), fun h1 => by omega⟩,
           fun h6x => by omega⟩
  · by_cases h6 : bs.length = 6
    · rw [hrr, if_neg hz, if_neg (by omega)]
      refine ⟨?_, ?_, ?_⟩
      · constructor
        · intro h
          rcases hfb : fromBytes bs with e | m <;> rw [hfb] at h
          · injection h with h1
            subst h1
            exact absurd hfb (fromBytes_no_transport_error bs).1
          · cases h
        · intro h
          omega
      · constructor
        · intro h
          rcases hfb : fromBytes bs with e | m <;> rw [hfb] at h
          · injection h with h1
            subst h1
            exact absurd hfb (fromBytes_no_transport_error bs).2
          · cases h
        · intro h
          omega
      · intro _
        rcases hfb : fromBytes bs with e | m <;> simp [hfb, Except.map]
    · rw [hrr, if_neg hz, if_pos h6]
      exact ⟨⟨fun h => absurd h (by decide), fun h0 => absurd h0 hz⟩,
             ⟨fun _ => by omega, fun _ => rfl⟩,
             fun h6x => absurd h6x h6⟩

theorem receive_error_classification_witness :
    readResponse ⟨[[1, 2]], [], 0⟩ = .error .badResponse :=
  ((receive_error_classification ⟨[[1, 2]], [], 0⟩ [1, 2] ⟨[], [], 1⟩ rfl
      (by decide)).2.1).mpr (by decide)

/-- C7: `Message` construction enforces the registry's data arity: it
succeeds exactly when a no-datum code gets `None` and an int-datum code
gets a Python `int`, and any mismatch raises the arity `TypeError`; in
particular `SINGLE_MACHINE_PAYOUT` with no datum and `RESET_DISPENSER`
with a datum both fail. -/
theorem construction_enforces_data_arity :
    (∀ (c : CommandOrStatus) (d : PyVal),
        mkMessage c d = .ok ⟨c, d⟩ ∨ mkMessage c d = .error .typeErrorArity) ∧
    (∀ (c : CommandOrStatus) (d : PyVal),
        mkMessage c d = .ok ⟨c, d⟩ ↔
          ((c.dataType = none ∧ d = .pyNone) ∨
           (∃ i : Int, c.dataType = some .tint ∧ d = .pyInt i))) ∧
    mkMessage (.cmd .SINGLE_MACHINE_PAYOUT) .pyNone = .error .typeErrorArity ∧
    mkMessage (.cmd .RESET_DISPENSER) (.pyInt 3) = .error .typeErrorArity := by
  refine ⟨?_, ?_, by decide, by decide⟩
  · intro c d
    unfold mkMessage
    split
    · exact Or.inl rfl
    · exact Or.inr rfl
  · intro c d
    rcases c with c | s
    · rcases d with _ | i | sv <;> cases c <;>
        simp [mkMessage, dataMatches, CommandOrStatus.dataType, commandsDataTypes]
    · rcases d with _ | i | sv <;>
        simp [mkMessage, dataMatches, CommandOrStatus.dataType]

/-- C8: `_compute_checksum` is the sum of all input bytes modulo 256 with
overflow discarded; in particular it maps `01 01 00 BB 0B` to `C8` and
`FF FF FF FF FF` to `FB`. -/
theorem checksum_sum_mod_256 :
    (∀ bs : List Nat, computeChecksum bs = bs.sum % 256) ∧
    computeChecksum [0x01, 0x01, 0x00, 0xBB, 0x0B] = 0xC8 ∧
    computeChecksum [0xFF, 0xFF, 0xFF, 0xFF, 0xFF] = 0xFB :=
  ⟨fun _ => rfl, by decide, by decide⟩

/-- C9: `send_command` fails with the not-a-user-command error for every
Status code (machine sender), and for a Command code with a valid in-range
datum it constructs the Message, encodes it, appends the 6-byte frame to
the transport's write log, and returns the Message that was sent. -/
theorem send_command_gating :
    (∀ (s : Status) (t : Transport) (d : PyVal),
        sendCommand t (.stat s) d = .error .notUserCommand) ∧
    (∀ (c : Command) (t : Transport) (d : PyVal),
        dataMatches (.cmd c) d = true →
        (∀ i : Int, d = .pyInt i → 0 ≤ i ∧ i < 256) →
        sendCommand t (.cmd c) d
          = .ok (⟨.cmd c, d⟩,
                 ⟨t.toRead,
                  t.written ++ [[1, 16, 0, Command.value c, pyDatum d]
                    ++ [computeChecksum [1, 16, 0, Command.value c, pyDatum d]]],
                  t.readCount⟩)) := by
  constructor
  · intro s t d
    rfl
  · intro c t d hm hd
    have h1 : mkMessage (.cmd c) d = .ok ⟨.cmd c, d⟩ := by
      unfold mkMessage
      rw [if_pos hm]
    unfold sendCommand
    rw [if_neg (by simp [CommandOrStatus.isUserCommand])]
    simp only [h1, toBytes_valid (.cmd c) d hm hd, CommandOrStatus.sender,
      CommandOrStatus.value, Sender.value]

theorem send_command_gating_witness :
    sendCommand ⟨[], [], 0⟩ (.stat .PAYOUT_FAILS) .pyNone = .error .notUserCommand ∧
    sendCommand ⟨[], [], 0⟩ (.cmd .SINGLE_MACHINE_PAYOUT) (.pyInt 23)
      = .ok (⟨.cmd .SINGLE_MACHINE_PAYOUT, .pyInt 23⟩,
             ⟨[], [[1, 16, 0, 16, 23, 56]], 0⟩) :=
  ⟨send_command_gating.1 .PAYOUT_FAILS ⟨[], [], 0⟩ .pyNone,
   send_command_gating.2 .SINGLE_MACHINE_PAYOUT ⟨[], [], 0⟩ (.pyInt 23) (by decide)
     (by intro i h; cases h; exact ⟨by decide, by decide⟩)⟩

/-- C10: `from_bytes` never inspects the reserved byte: any 6-byte frame
with start byte 0x01 whose code has one-byte data arity, whose sender
byte matches the resolved code's sender, and whose checksum over bytes
0-4 is valid decodes successfully regardless of the value of byte 2. -/
theorem decode_ignores_reserved_byte :
    ∀ (c : CommandOrStatus) (b2 b4 : Nat),
      c.dataType = some .tint →
      fromBytes [1, c.sender.value, b2, c.value, b4,
                 computeChecksum [1, c.sender.value, b2, c.value, b4]]
        = .ok ⟨c, .pyInt (b4 : Int)⟩ := by
  intro c b2 b4 hdt
  rcases c with c | s
  · cases c <;>
      simp_all [fromBytes, fromByte, senderFromValue, commandFromValue, statusFromValue,
        CommandOrStatus.dataType, commandsDataTypes, CommandOrStatus.sender, Sender.value,
        CommandOrStatus.value, Command.value, mkMessage, dataMatches]
  · cases s <;>
      simp_all [fromBytes, fromByte, senderFromValue, commandFromValue, statusFromValue,
        CommandOrStatus.dataType, CommandOrStatus.sender, Sender.value,
        CommandOrStatus.value, Status.value, mkMessage, dataMatches]

theorem decode_ignores_reserved_byte_witness :
    fromBytes [1, 1, 85, 170, 3, 4] = .ok ⟨.stat .PAYOUT_SUCCESSFUL, .pyInt 3⟩ :=
  decode_ignores_reserved_byte (.stat .PAYOUT_SUCCESSFUL) 85 3 (by decide)

end ND300
